import Mathlib

/-!
Verification of `kali_execution_server/kali_driver/driver.py`.

The driver coordinates a container engine (docker), a remote shell
(paramiko) and tar-archive file extraction.  We embed the driver's
functions shallowly: external effects (engine calls, ssh calls, sleeps)
are recorded in an explicit event trace, the engine and the filesystem
are given as explicit state/environment values, and Python exceptions
become `Except` errors.
-/

namespace KaliDriver

/-! ## UTF-8 decoding, modelling Python `bytes.decode('utf-8', errors=...)`

`copy_file_from_container` decodes the first tar entry with
`.decode('utf-8', errors='ignore')`.  We model CPython's incremental
UTF-8 decoder: a maximal subpart of an ill-formed sequence forms one
error unit, which the `ignore` handler drops and the `replace` handler
turns into one U+FFFD. -/

inductive ErrPolicy
  | ignore
  | replace
deriving DecidableEq, Repr

/-- What one undecodable error unit contributes to the output. -/
def errOut : ErrPolicy → List Nat
  | .ignore => []
  | .replace => [0xFFFD]

/-- Is `b` a UTF-8 continuation byte (`0x80..0xBF`)? -/
def isCont (b : Nat) : Bool := 0x80 ≤ b && b < 0xC0

/-- Lower bound for the first continuation byte after lead `b`
(restricted for `0xE0` and `0xF0` to exclude overlong encodings). -/
def cont1Lo (b : Nat) : Nat :=
  if b = 0xE0 then 0xA0 else if b = 0xF0 then 0x90 else 0x80

/-- Upper bound for the first continuation byte after lead `b`
(restricted for `0xED` to exclude surrogates and for `0xF4` to stay
below `0x110000`). -/
def cont1Hi (b : Nat) : Nat :=
  if b = 0xED then 0x9F else if b = 0xF4 then 0x8F else 0xBF

def validCont1 (b c : Nat) : Bool := cont1Lo b ≤ c && c ≤ cont1Hi b

/-- Result of analysing one UTF-8 unit at the head of the input:
either a decoded scalar value, or one ill-formed unit (a maximal
subpart, or a lone invalid byte).  `tail` is how many bytes beyond the
lead byte the unit consumes. -/
inductive Utf8Unit
  | scalar (cp : Nat) (tail : Nat)
  | invalid (tail : Nat)
deriving DecidableEq, Repr

/-- Analyse the unit formed by lead byte `b` followed by `rest`. -/
def utf8Head (b : Nat) (rest : List Nat) : Utf8Unit :=
  if b < 0x80 then .scalar b 0
  else if b < 0xC2 then .invalid 0
  else if b < 0xE0 then
    match rest with
    | [] => .invalid 0
    | c1 :: _ =>
      if validCont1 b c1 then .scalar ((b - 0xC0) * 0x40 + (c1 - 0x80)) 1
      else .invalid 0
  else if b < 0xF0 then
    match rest with
    | [] => .invalid 0
    | c1 :: rest2 =>
      if validCont1 b c1 then
        match rest2 with
        | [] => .invalid 1
        | c2 :: _ =>
          if isCont c2 then
            .scalar ((b - 0xE0) * 0x1000 + (c1 - 0x80) * 0x40 + (c2 - 0x80)) 2
          else .invalid 1
      else .invalid 0
  else if b < 0xF5 then
    match rest with
    | [] => .invalid 0
    | c1 :: rest2 =>
      if validCont1 b c1 then
        match rest2 with
        | [] => .invalid 1
        | c2 :: rest3 =>
          if isCont c2 then
            match rest3 with
            | [] => .invalid 2
            | c3 :: _ =>
              if isCont c3 then
                .scalar ((b - 0xF0) * 0x40000 + (c1 - 0x80) * 0x1000 +
                    (c2 - 0x80) * 0x40 + (c3 - 0x80)) 3
              else .invalid 2
          else .invalid 1
      else .invalid 0
  else .invalid 0

/-- Decode a UTF-8 byte sequence to a list of code points under error
policy `pol`, as CPython's decoder does: well-formed units become
scalar values, each ill-formed unit becomes one error unit. -/
def decodeUtf8 (pol : ErrPolicy) : List Nat → List Nat
  | [] => []
  | b :: rest =>
    match utf8Head b rest with
    | .scalar cp tail => cp :: decodeUtf8 pol (rest.drop tail)
    | .invalid tail => errOut pol ++ decodeUtf8 pol (rest.drop tail)
termination_by bs => bs.length
decreasing_by all_goals simp [List.length_drop]; omega

/-- Code points to a Lean `String` (all code points produced by
`decodeUtf8` are valid scalar values, see `decodeUtf8_valid`). -/
def codepointsToString (cps : List Nat) : String :=
  String.mk (cps.map Char.ofNat)

/-- Python `bytes(bs).decode('utf-8', errors=pol)`. -/
def pyDecode (pol : ErrPolicy) (bs : List Nat) : String :=
  codepointsToString (decodeUtf8 pol bs)

/-! ## `copy_file_from_container`

```python
def copy_file_from_container(self, path: str) -> str:
    try:
        bits, stat = self._container.get_archive(path)
        with BytesIO() as f:
            for chunk in bits: f.write(chunk)
            f.seek(0)
            with tarfile.open(fileobj=f) as tar:
                member = tar.getmembers()[0]
                extracted_file = tar.extractfile(member)
                return extracted_file.read().decode('utf-8', errors='ignore')
    except docker.errors.NotFound:
        return f"Command produced no output file at '{path}'."
    except IndexError:
        return f"Command produced no output file at '{path}'."
```

The environment's answer to `get_archive` is either `NotFound` (the path
does not exist in the container) or the list of file entries of the
decoded tar stream (the chunk concatenation and tar parsing are engine
and library work; the driver only consumes the member list). -/

inductive ArchiveFetch
  | notFound
  | archive (entries : List (List Nat))
deriving DecidableEq, Repr

/-- The sentinel string the driver returns when no output file exists. -/
def noOutputMsg (path : String) : String :=
  s!"Command produced no output file at \x27{path}\x27."

/-- Shallow embedding of `KaliContainer.copy_file_from_container`.
Total: the `docker.errors.NotFound` and `IndexError` ("zero tar
members") exceptions are the two caught in the source, and decoding with
`errors='ignore'` never raises. -/
def copy_file_from_container (fetch : ArchiveFetch) (path : String) : String :=
  match fetch with
  | .notFound => noOutputMsg path
  | .archive [] => noOutputMsg path
  | .archive (e :: _) => pyDecode .ignore e

/-! ## Sandbox state and environment

`KaliContainer` holds `self._ssh_client` (a paramiko client) and
`self._container` (the docker handle; `reload` refreshes `status` and
`ports` from the engine).  The `retired_sessions` field is a history
variable: it records every client object that `_ensure_connected`
overwrote, so that the one-live-session invariant can be stated about
all sessions ever associated with the sandbox.

A paramiko `SSHClient` holds `self._transport`: `None` on a freshly
constructed client, set by `connect()`, and reset to `None` by
`close()`.  `get_transport()` returns it as is, and
`Transport.is_active()` reports whether the underlying session is
still up.  So a client is modelled by `transport : Option Bool`:
`none` is a client with no transport object (never connected, or
closed), `some b` is a transport whose `is_active()` returns `b`. -/

structure Session where
  transport : Option Bool
deriving DecidableEq, Repr

structure KaliContainerState where
  ssh_client : Option Session
  retired_sessions : List Session
  container_exists : Bool
  status : String
  host_port : Option Nat
deriving DecidableEq, Repr

/-- Host-side facts the driver consults. -/
structure Env where
  key_exists : Bool
  connect_ok : Bool
deriving DecidableEq, Repr

/-- External effects the driver performs, in order. -/
inductive Event
  | reload
  | start
  | sleep (seconds : Nat)
  | connect (host : String) (port : Nat) (username : String) (timeout : Nat)
  | exec_command (command : String) (timeout : Nat)
  | recv_exit_status (status : Int)
  | close_ssh
  | stop
  | remove
deriving DecidableEq, Repr

/-- The failures the driver can raise: the spec's taxonomy —
`Exception("Failed to find mapped SSH port ...")` is `portMappingError`,
`FileNotFoundError("SSH private key not found ...")` is
`credentialMissing`, paramiko connection errors are `connectFailure`,
the re-raised docker failure in `KaliManager.__init__` is
`runtimeUnavailable` — plus two untyped escapes of
`_ensure_connected`: `attributeError`, the `AttributeError` Python
raises when its guard calls `.is_active()` on the `None` that
`get_transport()` returns for a client with no transport object, and
`dockerNotFound`, the uncaught `docker.errors.NotFound` that
`self._container.reload()` raises once the container was removed. -/
inductive DriverError
  | runtimeUnavailable
  | portMappingError
  | credentialMissing
  | connectFailure
  | attributeError
  | dockerNotFound
deriving DecidableEq, Repr

/-- Errors the container engine itself can raise.  `notFound` is
`docker.errors.NotFound`; `apiError` stands for any other engine
failure (none of the engine operations modelled below produce it, but
`destroy`'s handler must distinguish it from `notFound`, since the
source catches only `docker.errors.NotFound`). -/
inductive EngineError
  | notFound
  | apiError
deriving DecidableEq, Repr

/-! ## `_ensure_started`

```python
def _ensure_started(self):
    self._container.reload()
    if self._container.status != "running":
        self._container.start()
        time.sleep(2)
    self._container.reload()
```

`st.status` is the status the first `reload` refreshes from the engine.
`start` moves the container to `"running"`. -/

def _ensure_started (st : KaliContainerState) :
    KaliContainerState × List Event :=
  if st.status ≠ "running" then
    ({ st with status := "running" },
     [Event.reload, Event.start, Event.sleep 2, Event.reload])
  else
    (st, [Event.reload, Event.reload])

/-! ## `_ensure_connected`

```python
def _ensure_connected(self):
    if self._ssh_client and self._ssh_client.get_transport().is_active():
        return
    self._container.reload()
    port_data = self._container.ports.get('22/tcp')
    if not port_data or 'HostPort' not in port_data[0]:
        raise Exception(f"Failed to find mapped SSH port ...")
    public_port = int(port_data[0]['HostPort'])
    key_path = os.path.expanduser('~/.ssh/id_ecdsa')
    if not os.path.exists(key_path):
        raise FileNotFoundError(f"SSH private key not found at {key_path}.")
    self._ssh_client = paramiko.SSHClient()
    self._ssh_client.set_missing_host_key_policy(paramiko.AutoAddPolicy())
    self._ssh_client.connect(hostname='localhost', port=public_port,
                             username='root', key_filename=key_path, timeout=30)
```

`st.host_port` is the engine's published `HostPort` for `'22/tcp'`
(after `reload`), `none` when unpublished.

Since `self._ssh_client = paramiko.SSHClient()` runs before
`connect()`, a raising `connect` leaves the fresh transport-less
client assigned; Python exceptions propagate with `self` already
mutated, so the embedding returns the post-state alongside the
outcome. -/

/-- The Python guard `self._ssh_client and
self._ssh_client.get_transport().is_active()`: `ok false` when the
client is `None` (falsy, short-circuit) or its transport reports
inactive; `ok true` when the transport reports active; and for a
client whose `get_transport()` is `None`, evaluating
`None.is_active()` raises `AttributeError`. -/
def guard_alive (sc : Option Session) : Except DriverError Bool :=
  match sc with
  | none => .ok false
  | some s =>
    match s.transport with
    | none => .error .attributeError
    | some b => .ok b

def _ensure_connected (env : Env) (st : KaliContainerState) :
    KaliContainerState × Except DriverError (List Event) :=
  match guard_alive st.ssh_client with
  | .error e => (st, .error e)
  | .ok true => (st, .ok [])
  | .ok false =>
    -- self._container.reload(): raises docker.errors.NotFound, uncaught
    -- here, once the engine no longer has the container
    if st.container_exists = false then (st, .error .dockerNotFound)
    else
    match st.host_port with
    | none => (st, .error .portMappingError)
    | some port =>
      if env.key_exists = false then (st, .error .credentialMissing)
      else
        let st1 := { st with
          ssh_client := some { transport := none },
          retired_sessions := st.retired_sessions ++ st.ssh_client.toList }
        if env.connect_ok then
          ({ st1 with ssh_client := some { transport := some true } },
           .ok [Event.reload, Event.connect "localhost" port "root" 30])
        else (st1, .error .connectFailure)

/-! ## `send_command_and_get_output`

```python
def send_command_and_get_output(self, command: str, timeout: int = 1800):
    self._ensure_connected()
    print(f"  [+] Sending command: '{command}'")
    stdin, stdout, stderr = self._ssh_client.exec_command(command, timeout=timeout)
    exit_status = stdout.channel.recv_exit_status()
    print(f"  [+] Command finished with exit status: {exit_status}")
    # (no return statement: the method returns None)
```
-/

/-- The remote process an `exec_command` channel is attached to.
`exit_code` is the status it will exit with (supplied by the
environment). -/
structure RemoteProc where
  command : String
  exited : Bool
  exit_code : Int
deriving DecidableEq, Repr

/-- Models paramiko `Channel.recv_exit_status()`: it blocks until the
remote process has exited and then returns the exit status, so at the
moment it returns the process is exited. -/
def recv_exit_status (p : RemoteProc) : Int × RemoteProc :=
  (p.exit_code, { p with exited := true })

/-- Models paramiko `SSHClient.exec_command(command, timeout)`: the
command is submitted and the process starts; `exec_command` does not
wait for it. -/
def exec_command (command : String) (code : Int) : RemoteProc :=
  { command := command, exited := false, exit_code := code }

/-- Shallow embedding of `KaliContainer.send_command_and_get_output`.
`remote_exit_code` is the status the remote process will exit with.
Returns the sandbox state after the call (also when an exception from
`_ensure_connected` propagates) and, on return, the Python return
value (an `Option Int`: the method body has no `return` statement, so
it evaluates to `None`), the remote process as it is when the method
returns, and the event trace. -/
def send_command_and_get_output (env : Env) (st : KaliContainerState)
    (command : String) (timeout : Nat) (remote_exit_code : Int) :
    KaliContainerState × Except DriverError (Option Int × RemoteProc × List Event) :=
  match _ensure_connected env st with
  | (st1, .error e) => (st1, .error e)
  | (st1, .ok tr) =>
    let proc0 := exec_command command remote_exit_code
    let (status, proc1) := recv_exit_status proc0
    (st1, .ok (none, proc1,
         tr ++ [Event.exec_command command timeout, Event.recv_exit_status status]))

/-! ## Engine container operations

`reload`, `stop` and `remove` act on the engine's view of the
container: they succeed while the engine still has the container and
raise `docker.errors.NotFound` once it is gone. -/

def container_reload (st : KaliContainerState) :
    Except EngineError KaliContainerState :=
  if st.container_exists then .ok st else .error .notFound

def container_stop (st : KaliContainerState) :
    Except EngineError KaliContainerState :=
  if st.container_exists then .ok { st with status := "exited" }
  else .error .notFound

def container_remove (st : KaliContainerState) :
    Except EngineError KaliContainerState :=
  if st.container_exists then
    .ok { st with container_exists := false, status := "removed" }
  else .error .notFound

/-! ## `destroy`

```python
def destroy(self):
    if self._ssh_client:
        self._ssh_client.close()
    try:
        self._container.reload()
        print(f"...")
        if self._container.status in ["running", "created"]:
            self._container.stop()
        self._container.remove(force=True)
        print("  [+] Cleanup complete.")
    except docker.errors.NotFound:
        pass
```

paramiko `SSHClient.close()` never raises, also on an already-closed
client: it returns at once when `self._transport` is `None`, otherwise
closes the transport and sets `self._transport = None` — so after
`close()` the client's transport is `None` either way. -/

def destroy (st : KaliContainerState) :
    Except EngineError (KaliContainerState × List Event) :=
  let st0 :=
    match st.ssh_client with
    | some s => { st with ssh_client := some { s with transport := none } }
    | none => st
  let tr0 :=
    match st.ssh_client with
    | some _ => [Event.close_ssh]
    | none => ([] : List Event)
  let body : Except EngineError (KaliContainerState × List Event) :=
    match container_reload st0 with
    | .error e => .error e
    | .ok st1 =>
      match
        (if st1.status = "running" ∨ st1.status = "created" then
          match container_stop st1 with
          | .error e => .error e
          | .ok s => .ok (s, [Event.stop])
        else .ok (st1, ([] : List Event)) :
          Except EngineError (KaliContainerState × List Event)) with
      | .error e => .error e
      | .ok (st2, tr2) =>
        match container_remove st2 with
        | .error e => .error e
        | .ok st3 => .ok (st3, tr0 ++ [Event.reload] ++ tr2 ++ [Event.remove])
  match body with
  | .error .notFound => .ok (st0, tr0)
  | other => other

/-! ## `KaliManager`

```python
class KaliManager:
    def __init__(self):
        try:
            self._docker_client = docker.from_env()
            self._docker_client.ping()
        except Exception as e:
            print("FATAL ERROR: Could not connect to Docker. Is it running?")
            raise e
```
-/

/-- The engine as the manager sees it: reachability, and the
containers it currently hosts. -/
structure DockerEngine where
  reachable : Bool
  containers : List String
deriving DecidableEq, Repr

/-- A connected manager (it only carries the docker client). -/
structure KaliManager where
  ping_ok : Bool
deriving DecidableEq, Repr

/-- Shallow embedding of `KaliManager.__init__`: `docker.from_env()` +
`ping()`; any failure is re-raised.  Returns the outcome and the
engine, whose container list `__init__` never touches. -/
def kali_manager_init (eng : DockerEngine) :
    Except DriverError KaliManager × DockerEngine :=
  if eng.reachable then (.ok { ping_ok := true }, eng)
  else (.error .runtimeUnavailable, eng)

/-! ## Operation sequences over one sandbox (for the session invariant)

The driver's public operations, plus the environment step in which the
transport of the current session drops (network failure, remote close).
Each step returns the sandbox state after the call, also when the call
raised (an exception can propagate after `self._ssh_client` was
reassigned). -/

inductive SandboxOp
  | execute (command : String) (remote_exit_code : Int)
  | retrieve_file (fetch : ArchiveFetch) (path : String)
  | destroy_call
  | transport_drop
deriving Repr

def sandbox_step (env : Env) (st : KaliContainerState) :
    SandboxOp → KaliContainerState
  | .execute cmd code =>
    (send_command_and_get_output env st cmd 1800 code).1
  | .retrieve_file _ _ => st
  | .destroy_call =>
    match destroy st with
    | .ok (st1, _) => st1
    | .error _ => st
  | .transport_drop =>
    match st.ssh_client with
    | some s =>
      match s.transport with
      | some _ => { st with ssh_client := some { transport := some false } }
      | none => st
    | none => st

def run_ops (env : Env) (st : KaliContainerState) :
    List SandboxOp → KaliContainerState
  | [] => st
  | op :: ops => run_ops env (sandbox_step env st op) ops

/-- State of a freshly created sandbox: `self._ssh_client = None`, the
container exists on the engine. -/
def fresh_container (port : Option Nat) (status : String) :
    KaliContainerState :=
  { ssh_client := none
    retired_sessions := []
    container_exists := true
    status := status
    host_port := port }

/-- Sessions ever associated with the sandbox whose transport is
currently active. -/
def live_sessions (st : KaliContainerState) : Nat :=
  ((st.retired_sessions ++ st.ssh_client.toList).filter
    (fun s => s.transport == some true)).length

/-- No retired (overwritten) client has an active transport. -/
def retired_dead (st : KaliContainerState) : Prop :=
  ∀ s ∈ st.retired_sessions, s.transport ≠ some true

/-! ## Concrete demonstration inputs -/

def demo_env : Env := { key_exists := true, connect_ok := true }

def demo_env_nokey : Env := { key_exists := false, connect_ok := true }

def demo_env_noconnect : Env := { key_exists := true, connect_ok := false }

def demo_container : KaliContainerState := fresh_container (some 49154) "running"

def demo_connected : KaliContainerState :=
  { ssh_client := some { transport := some true }
    retired_sessions := []
    container_exists := true
    status := "running"
    host_port := some 49154 }

/-- The state `destroy` leaves behind from `demo_connected`: the
client is still assigned but closed (its transport is `None`), the
container is gone from the engine. -/
def demo_destroyed : KaliContainerState :=
  { ssh_client := some { transport := none }
    retired_sessions := []
    container_exists := false
    status := "removed"
    host_port := some 49154 }

/-- A sandbox that never connected and whose container was removed. -/
def demo_removed : KaliContainerState :=
  { ssh_client := none
    retired_sessions := []
    container_exists := false
    status := "removed"
    host_port := some 49154 }

/-! # Theorems for the claims -/

/-- C1 (counterexample): on a fresh running sandbox whose remote
process exits with status 7, `send_command_and_get_output` evaluates to
`None` (`none`), not to the exit status 7 the claim says it returns. -/
theorem execute_return_value_counterexample :
    send_command_and_get_output demo_env demo_container "uname -a" 1800 7
      = (demo_connected,
         .ok (none,
              { command := "uname -a", exited := true, exit_code := 7 },
              [Event.reload, Event.connect "localhost" 49154 "root" 30,
               Event.exec_command "uname -a" 1800, Event.recv_exit_status 7])) ∧
    (none : Option Int) ≠ some 7 :=
  ⟨rfl, by decide⟩

/-- C1 (amended): whenever `send_command_and_get_output` returns (does
not raise), it has observed the remote exit status (a
`recv_exit_status` effect is in its trace) but its return value is
`None` — the method body has no `return` statement — so the exit status
is never handed to the caller. -/
theorem execute_discards_exit_status (env : Env) (st : KaliContainerState)
    (cmd : String) (t : Nat) (code : Int) (v : Option Int)
    (st1 : KaliContainerState) (proc : RemoteProc) (tr : List Event)
    (h : send_command_and_get_output env st cmd t code = (st1, .ok (v, proc, tr))) :
    v = none ∧ Event.recv_exit_status code ∈ tr := by
  unfold send_command_and_get_output at h
  cases hc : _ensure_connected env st with
  | mk st2 r =>
    rw [hc] at h
    cases r with
    | error e => simp at h
    | ok tr2 =>
      simp only [exec_command, recv_exit_status, Prod.mk.injEq,
        Except.ok.injEq] at h
      obtain ⟨-, hv, -, htr⟩ := h
      subst hv htr
      simp

theorem execute_discards_exit_status_witness :
    (none : Option Int) = none ∧
      Event.recv_exit_status 7 ∈
        [Event.reload, Event.connect "localhost" 49154 "root" 30,
         Event.exec_command "uname -a" 1800, Event.recv_exit_status 7] :=
  execute_discards_exit_status demo_env demo_container "uname -a" 1800 7 none
    demo_connected { command := "uname -a", exited := true, exit_code := 7 }
    [Event.reload, Event.connect "localhost" 49154 "root" 30,
     Event.exec_command "uname -a" 1800, Event.recv_exit_status 7] rfl

/-- C2: whenever `send_command_and_get_output` returns, the remote
process has exited, and the trace ends with `exec_command` immediately
followed by `recv_exit_status` — the command is submitted and then the
call synchronously waits on the remote exit status; nothing happens
after the status is observed, so the call cannot return earlier. -/
theorem execute_blocks_until_exit (env : Env) (st : KaliContainerState)
    (cmd : String) (t : Nat) (code : Int) (v : Option Int)
    (st1 : KaliContainerState) (proc : RemoteProc) (tr : List Event)
    (h : send_command_and_get_output env st cmd t code = (st1, .ok (v, proc, tr))) :
    proc.exited = true ∧
    ∃ tr0, tr = tr0 ++ [Event.exec_command cmd t, Event.recv_exit_status code] := by
  unfold send_command_and_get_output at h
  cases hc : _ensure_connected env st with
  | mk st2 r =>
    rw [hc] at h
    cases r with
    | error e => simp at h
    | ok tr2 =>
      simp only [exec_command, recv_exit_status, Prod.mk.injEq,
        Except.ok.injEq] at h
      obtain ⟨-, -, hproc, htr⟩ := h
      subst htr
      constructor
      · rw [← hproc]
      · exact ⟨tr2, by simp⟩

theorem execute_blocks_until_exit_witness :
    ({ command := "uname -a", exited := true, exit_code := 7 } : RemoteProc).exited
        = true ∧
    ∃ tr0,
      [Event.reload, Event.connect "localhost" 49154 "root" 30,
       Event.exec_command "uname -a" 1800, Event.recv_exit_status 7]
        = tr0 ++ [Event.exec_command "uname -a" 1800, Event.recv_exit_status 7] :=
  execute_blocks_until_exit demo_env demo_container "uname -a" 1800 7 none
    demo_connected { command := "uname -a", exited := true, exit_code := 7 }
    [Event.reload, Event.connect "localhost" 49154 "root" 30,
     Event.exec_command "uname -a" 1800, Event.recv_exit_status 7] rfl

/-- C3 (counterexample): for a path the engine reports absent,
`copy_file_from_container` returns the sentinel message
`"Command produced no output file at '<path>'."`, which is not the
empty content string the claim promises. -/
theorem retrieve_missing_file_counterexample :
    copy_file_from_container .notFound "/tmp/out.txt"
      = "Command produced no output file at \x27/tmp/out.txt\x27." ∧
    ("Command produced no output file at \x27/tmp/out.txt\x27." : String) ≠ "" :=
  ⟨rfl, by decide⟩

/-- C3 (amended): for a path that was never written — the engine
reports it absent, or the retrieved archive decodes to zero entries —
`copy_file_from_container` does not raise (both exceptions are caught)
and returns the sentinel message string, not an error. -/
theorem retrieve_missing_file_sentinel (path : String) :
    copy_file_from_container .notFound path = noOutputMsg path ∧
    copy_file_from_container (.archive []) path = noOutputMsg path :=
  ⟨rfl, rfl⟩

/-- C7: when the container engine is unreachable, `KaliManager.__init__`
raises (`RuntimeUnavailable`), no manager value is ever produced, and
the engine's container list is untouched — no container is left behind. -/
theorem manager_init_unreachable (eng : DockerEngine)
    (h : eng.reachable = false) :
    (kali_manager_init eng).1 = .error .runtimeUnavailable ∧
    ((kali_manager_init eng).2).containers = eng.containers ∧
    ∀ m : KaliManager, (kali_manager_init eng).1 ≠ .ok m := by
  simp [kali_manager_init, h]

theorem manager_init_unreachable_witness :
    (kali_manager_init { reachable := false, containers := [] }).1
        = .error .runtimeUnavailable ∧
    ((kali_manager_init { reachable := false, containers := [] }).2).containers
        = ([] : List String) ∧
    ∀ m : KaliManager,
      (kali_manager_init { reachable := false, containers := [] }).1 ≠ .ok m :=
  manager_init_unreachable { reachable := false, containers := [] } rfl

/-- C8: `_ensure_started` on a container whose refreshed status is
`"running"` only inspects (two `reload`s, no `start`, no `sleep`) and
leaves the state unchanged; otherwise it issues exactly one `start`
followed by a single fixed `sleep 2` grace period — no poll loop. -/
theorem ensure_started_spec (st : KaliContainerState) :
    (st.status = "running" →
      _ensure_started st = (st, [Event.reload, Event.reload])) ∧
    (st.status ≠ "running" →
      _ensure_started st =
        ({ st with status := "running" },
         [Event.reload, Event.start, Event.sleep 2, Event.reload])) := by
  constructor <;> intro h <;> simp [_ensure_started, h]

theorem ensure_started_spec_witness :
    _ensure_started demo_container = (demo_container, [Event.reload, Event.reload]) ∧
    _ensure_started (fresh_container (some 49154) "exited")
      = (demo_container, [Event.reload, Event.start, Event.sleep 2, Event.reload]) :=
  ⟨(ensure_started_spec demo_container).1 rfl,
   (ensure_started_spec (fresh_container (some 49154) "exited")).2 (by decide)⟩

set_option maxRecDepth 4096 in
/-- Every scalar value `utf8Head` produces is a valid Unicode scalar
value (below the surrogates, or between them and `0x110000`). -/
lemma utf8Head_scalar_valid (b : Nat) (rest : List Nat) (cp tail : Nat)
    (h : utf8Head b rest = .scalar cp tail) : Nat.isValidChar cp := by
  unfold utf8Head at h
  unfold Nat.isValidChar
  repeat' split at h
  all_goals cases h
  all_goals
    try simp_all only [validCont1, cont1Lo, cont1Hi, isCont,
      Bool.and_eq_true, decide_eq_true_eq]
  all_goals first
    | (split_ifs at * <;> omega)
    | omega

/-- Decoding never produces an invalid code point, under either error
policy: the decode is total and its output is well-formed text. -/
lemma decodeUtf8_valid (pol : ErrPolicy) (bs : List Nat) :
    ∀ c ∈ decodeUtf8 pol bs, Nat.isValidChar c := by
  induction bs using decodeUtf8.induct pol with
  | case1 => simp [decodeUtf8]
  | case2 b rest cp tail hHead ih =>
    intro c hm
    simp only [decodeUtf8, hHead] at hm
    rcases List.mem_cons.mp hm with rfl | hm2
    · exact utf8Head_scalar_valid b rest c tail hHead
    · exact ih c hm2
  | case3 b rest tail hHead ih =>
    intro c hm
    simp only [decodeUtf8, hHead] at hm
    rcases List.mem_append.mp hm with hm1 | hm2
    · cases pol <;> simp [errOut] at hm1
      subst hm1
      unfold Nat.isValidChar
      omega
    · exact ih c hm2

/-- C5 (counterexample): on a file whose bytes are `FF 68 69` (an
invalid byte followed by `"hi"`), `copy_file_from_container` returns
`"hi"` — `errors='ignore'` drops the invalid byte — while decoding by
substitution would return `"�" ++ "hi"`; the two differ, so the
content is not produced by substitution as the claim states. -/
theorem retrieve_substitution_counterexample :
    copy_file_from_container (.archive [[0xFF, 0x68, 0x69]]) "/tmp/out.txt"
        = "hi" ∧
    pyDecode .replace [0xFF, 0x68, 0x69] = "�" ++ "hi" ∧
    ("hi" : String) ≠ "�" ++ "hi" := by
  refine ⟨?_, ?_, ?_⟩
  · simp [copy_file_from_container, pyDecode, codepointsToString,
      decodeUtf8, utf8Head, errOut, validCont1, cont1Lo, cont1Hi, isCont]
  · simp [pyDecode, codepointsToString, decodeUtf8, utf8Head, errOut,
      validCont1, cont1Lo, cont1Hi, isCont]
  · decide

/-- C5 (amended): for every file content, `copy_file_from_container`
returns the first archive entry decoded with `errors='ignore'` — the
decode never raises (it is total and every code point it yields is a
valid scalar value), but invalid byte sequences are dropped, not
replaced by a substitution character. -/
theorem retrieve_decodes_by_dropping_invalid (e : List Nat)
    (rest : List (List Nat)) (path : String) :
    copy_file_from_container (.archive (e :: rest)) path = pyDecode .ignore e ∧
    ∀ c ∈ decodeUtf8 .ignore e, Nat.isValidChar c :=
  ⟨rfl, decodeUtf8_valid .ignore e⟩

theorem retrieve_decodes_by_dropping_invalid_witness :
    copy_file_from_container (.archive [[0x68]]) "/tmp/x"
        = pyDecode .ignore [0x68] ∧
    Nat.isValidChar 0x68 :=
  ⟨(retrieve_decodes_by_dropping_invalid [0x68] [] "/tmp/x").1,
   (retrieve_decodes_by_dropping_invalid [0x68] [] "/tmp/x").2 0x68
     (by simp [decodeUtf8, utf8Head])⟩

/-- C6 (counterexample): after a successful `destroy` the client is
still assigned but its transport is `None` — a reachable state (a
failed `connect` leaves the same shape, since the fresh client is
assigned before `connect` raises, and the spec calls `ConnectFailure`
retryable).  There, with the host port published, the key present and
the remote reachable, the claim's "otherwise" branch promises the
typed failures or a reconnect with timeout 30, but the guard itself
raises `AttributeError` (`None.is_active()`), which is none of the
claimed outcomes. -/
theorem ensure_connected_guard_counterexample :
    destroy demo_connected
      = .ok (demo_destroyed,
             [Event.close_ssh, Event.reload, Event.stop, Event.remove]) ∧
    _ensure_connected demo_env demo_destroyed
      = (demo_destroyed, .error .attributeError) ∧
    (Except.error DriverError.attributeError : Except DriverError (List Event))
      ≠ .ok [Event.reload, Event.connect "localhost" 49154 "root" 30] ∧
    DriverError.attributeError ≠ DriverError.portMappingError ∧
    DriverError.attributeError ≠ DriverError.credentialMissing :=
  ⟨rfl, rfl, by intro h; exact Except.noConfusion h, by decide, by decide⟩

/-- C6 (amended): `_ensure_connected` reuses the existing session when
its transport is alive (state unchanged, no effects); when no client
exists, or the client's transport object reports inactive, it fails
with `portMappingError` when the engine published no host port for the
container's port 22, fails with `credentialMissing` when the fixed key
path `~/.ssh/id_ecdsa` does not exist, opens the new session with a
connect timeout of 30 when connecting succeeds, and on a failing
connect raises `connectFailure` with the fresh transport-less client
left assigned.  Two untyped escapes precede those outcomes: when the
client exists with no transport object (closed by `destroy`, or left
by a failed connect), the guard itself raises `attributeError` before
any other step; and when the container was removed, the `reload` call
raises the uncaught `dockerNotFound` before the port lookup. -/
theorem ensure_connected_spec (env : Env) (st : KaliContainerState) :
    (guard_alive st.ssh_client = .ok true →
      _ensure_connected env st = (st, .ok [])) ∧
    (guard_alive st.ssh_client = .error .attributeError →
      _ensure_connected env st = (st, .error .attributeError)) ∧
    (guard_alive st.ssh_client = .ok false → st.container_exists = false →
      _ensure_connected env st = (st, .error .dockerNotFound)) ∧
    (guard_alive st.ssh_client = .ok false → st.container_exists = true →
      st.host_port = none →
      _ensure_connected env st = (st, .error .portMappingError)) ∧
    (∀ p, guard_alive st.ssh_client = .ok false → st.container_exists = true →
      st.host_port = some p → env.key_exists = false →
      _ensure_connected env st = (st, .error .credentialMissing)) ∧
    (∀ p, guard_alive st.ssh_client = .ok false → st.container_exists = true →
      st.host_port = some p → env.key_exists = true → env.connect_ok = true →
      _ensure_connected env st =
        ({ st with
            ssh_client := some { transport := some true },
            retired_sessions :=
              st.retired_sessions ++ st.ssh_client.toList },
         .ok [Event.reload, Event.connect "localhost" p "root" 30])) ∧
    (∀ p, guard_alive st.ssh_client = .ok false → st.container_exists = true →
      st.host_port = some p → env.key_exists = true → env.connect_ok = false →
      _ensure_connected env st =
        ({ st with
            ssh_client := some { transport := none },
            retired_sessions :=
              st.retired_sessions ++ st.ssh_client.toList },
         .error .connectFailure)) := by
  refine ⟨?_, ?_, ?_, ?_, ?_, ?_, ?_⟩ <;> intros <;>
    simp_all [_ensure_connected]

theorem ensure_connected_spec_witness :
    _ensure_connected demo_env demo_connected = (demo_connected, .ok []) ∧
    _ensure_connected demo_env demo_destroyed
      = (demo_destroyed, .error .attributeError) ∧
    _ensure_connected demo_env demo_removed
      = (demo_removed, .error .dockerNotFound) ∧
    _ensure_connected demo_env (fresh_container none "running")
      = (fresh_container none "running", .error .portMappingError) ∧
    _ensure_connected demo_env_nokey (fresh_container (some 49154) "running")
      = (fresh_container (some 49154) "running", .error .credentialMissing) ∧
    _ensure_connected demo_env demo_container
      = (demo_connected,
         .ok [Event.reload, Event.connect "localhost" 49154 "root" 30]) ∧
    _ensure_connected demo_env_noconnect demo_container
      = ({ demo_container with ssh_client := some { transport := none } },
         .error .connectFailure) :=
  ⟨(ensure_connected_spec demo_env demo_connected).1 rfl,
   (ensure_connected_spec demo_env demo_destroyed).2.1 rfl,
   (ensure_connected_spec demo_env demo_removed).2.2.1 rfl rfl,
   (ensure_connected_spec demo_env (fresh_container none "running")).2.2.2.1
     rfl rfl rfl,
   (ensure_connected_spec demo_env_nokey
      (fresh_container (some 49154) "running")).2.2.2.2.1 49154 rfl rfl rfl rfl,
   (ensure_connected_spec demo_env demo_container).2.2.2.2.2.1
     49154 rfl rfl rfl rfl rfl,
   (ensure_connected_spec demo_env_noconnect demo_container).2.2.2.2.2.2
     49154 rfl rfl rfl rfl rfl⟩

/-- After `destroy`, any associated client is closed (its transport is
`None`), the engine no longer has the container, and nothing else
changed. -/
lemma destroy_char (st : KaliContainerState) :
    ∃ tr, destroy st = .ok
      ({ ssh_client := st.ssh_client.map (fun _ => { transport := none }),
         retired_sessions := st.retired_sessions,
         container_exists := false,
         status := if st.container_exists = true then "removed" else st.status,
         host_port := st.host_port }, tr) := by
  obtain ⟨sc, rs, ce, status, hp⟩ := st
  cases sc with
  | none =>
    cases ce <;>
      by_cases hs : status = "running" ∨ status = "created" <;>
      simp [destroy, container_reload, container_stop, container_remove, hs]
  | some s =>
    obtain ⟨t⟩ := s
    cases ce <;>
      by_cases hs : status = "running" ∨ status = "created" <;>
      simp [destroy, container_reload, container_stop, container_remove, hs]

/-- C4: `destroy` never raises, in every sandbox state: the engine's
"container not found" answer is swallowed, and whatever state a first
successful `destroy` leaves, a second call is a no-op on that state
that again does not raise. -/
theorem destroy_never_raises (st : KaliContainerState) :
    (∃ r, destroy st = .ok r) ∧
    (∀ st1 tr1, destroy st = .ok (st1, tr1) →
      ∃ tr2, destroy st1 = .ok (st1, tr2)) := by
  constructor
  · obtain ⟨tr, h⟩ := destroy_char st
    exact ⟨_, h⟩
  · intro st1 tr1 h1
    obtain ⟨tr, h⟩ := destroy_char st
    have hst : st1 =
        { ssh_client := st.ssh_client.map (fun _ => { transport := none }),
          retired_sessions := st.retired_sessions,
          container_exists := false,
          status := if st.container_exists = true then "removed" else st.status,
          host_port := st.host_port } :=
      congrArg Prod.fst (Except.ok.inj (h1.symm.trans h))
    subst hst
    obtain ⟨tr2, h2⟩ := destroy_char
      { ssh_client := st.ssh_client.map (fun _ => { transport := none }),
        retired_sessions := st.retired_sessions,
        container_exists := false,
        status := if st.container_exists = true then "removed" else st.status,
        host_port := st.host_port }
    refine ⟨tr2, ?_⟩
    rw [h2]
    cases hsc : st.ssh_client <;> simp [hsc]

theorem destroy_never_raises_witness :
    (∃ r, destroy demo_connected = .ok r) ∧
    (∀ st1 tr1, destroy demo_connected = .ok (st1, tr1) →
      ∃ tr2, destroy st1 = .ok (st1, tr2)) :=
  destroy_never_raises demo_connected

/-- `_ensure_connected` either leaves the sandbox state unchanged
(live session reused, or an exception raised before the client
assignment) or overwrites the client, retiring the previous one — and
then the guard had found it not alive. -/
lemma ensure_connected_cases (env : Env) (st : KaliContainerState) :
    (_ensure_connected env st).1 = st ∨
      (guard_alive st.ssh_client = .ok false ∧
       (_ensure_connected env st).1.retired_sessions
         = st.retired_sessions ++ st.ssh_client.toList) := by
  unfold _ensure_connected
  cases hg : guard_alive st.ssh_client with
  | error e => left; rfl
  | ok b =>
    cases b with
    | true => left; rfl
    | false =>
      by_cases he : st.container_exists = false
      · simp [he]
      · rw [if_neg he]
        cases hp : st.host_port with
        | none => left; rfl
        | some p =>
          by_cases hk : env.key_exists = false
          · simp [hk]
          · right
            refine ⟨rfl, ?_⟩
            by_cases hc : env.connect_ok <;> simp [hk, hc]

/-- The sandbox state after `send_command_and_get_output` (also when
it raises) is the one `_ensure_connected` left. -/
lemma send_state (env : Env) (st : KaliContainerState) (cmd : String)
    (t : Nat) (code : Int) :
    (send_command_and_get_output env st cmd t code).1
      = (_ensure_connected env st).1 := by
  unfold send_command_and_get_output
  cases h : _ensure_connected env st with
  | mk st1 r => cases r <;> rfl

/-- A client is only ever retired with a dead transport. -/
lemma ensure_connected_retired_dead (env : Env) (st : KaliContainerState)
    (hd : retired_dead st) : retired_dead (_ensure_connected env st).1 := by
  rcases ensure_connected_cases env st with he | ⟨hg, hr⟩
  · rw [he]; exact hd
  · intro s hm
    rw [hr] at hm
    rcases List.mem_append.mp hm with hm1 | hm2
    · exact hd s hm1
    · cases hsc : st.ssh_client with
      | none => rw [hsc] at hm2; simp at hm2
      | some s0 =>
        rw [hsc] at hm2
        simp only [Option.toList_some, List.mem_singleton] at hm2
        subst hm2
        rw [hsc] at hg
        simp only [guard_alive] at hg
        cases ht : s.transport with
        | none => rw [ht] at hg; exact Except.noConfusion hg
        | some b =>
          rw [ht] at hg
          injection hg with hb
          simp [hb]

/-- Every sandbox operation keeps all retired clients dead. -/
lemma sandbox_step_retired_dead (env : Env) (st : KaliContainerState)
    (op : SandboxOp) (hd : retired_dead st) :
    retired_dead (sandbox_step env st op) := by
  cases op with
  | execute cmd code =>
    simp only [sandbox_step]
    rw [send_state env st cmd 1800 code]
    exact ensure_connected_retired_dead env st hd
  | retrieve_file fetch path => exact hd
  | destroy_call =>
    simp only [sandbox_step]
    cases hs : destroy st with
    | error e => exact hd
    | ok r =>
      obtain ⟨st1, tr⟩ := r
      obtain ⟨tr2, h2⟩ := destroy_char st
      have hst : st1 = _ := congrArg Prod.fst (Except.ok.inj (hs.symm.trans h2))
      rw [hst]
      exact fun s hm => hd s hm
  | transport_drop =>
    cases hsc : st.ssh_client with
    | none => simp only [sandbox_step, hsc]; exact hd
    | some s0 =>
      cases ht : s0.transport with
      | none => simp only [sandbox_step, hsc, ht]; exact hd
      | some b =>
        simp only [sandbox_step, hsc, ht]
        exact fun s hm => hd s hm

lemma run_ops_retired_dead (env : Env) (ops : List SandboxOp) :
    ∀ st, retired_dead st → retired_dead (run_ops env st ops) := by
  induction ops with
  | nil => exact fun st hd => hd
  | cons op ops ih =>
    intro st hd
    exact ih _ (sandbox_step_retired_dead env st op hd)

/-- When every retired client is dead, at most the current client can
be live. -/
lemma retired_dead_live_le_one (st : KaliContainerState)
    (hd : retired_dead st) : live_sessions st ≤ 1 := by
  unfold live_sessions
  rw [List.filter_append]
  have h1 : st.retired_sessions.filter (fun s => s.transport == some true)
      = [] := by
    rw [List.filter_eq_nil_iff]
    intro a ha
    simp [hd a ha]
  rw [h1]
  simp only [List.nil_append]
  calc (st.ssh_client.toList.filter fun s => s.transport == some true).length
      ≤ st.ssh_client.toList.length := List.length_filter_le _ _
    _ ≤ 1 := by cases st.ssh_client <;> simp

/-- C9: starting from a fresh sandbox, after any sequence of execute,
retrieve-file and destroy calls, with arbitrary transport drops in
between, at most one of the sessions ever associated with the sandbox
is transport-active at a time: `_ensure_connected` opens a new session
only when none exists or the existing transport is dead, and `destroy`
closes the session. -/
theorem at_most_one_live_session (env : Env) (port : Option Nat)
    (status : String) (ops : List SandboxOp) :
    live_sessions (run_ops env (fresh_container port status) ops) ≤ 1 :=
  retired_dead_live_le_one _
    (run_ops_retired_dead env ops (fresh_container port status)
      (fun s hm => absurd hm (List.not_mem_nil s)))

/-- C10: when the archive stream decodes to one or more entries,
`copy_file_from_container` returns the decoded first entry
(`tar.getmembers()[0]`) and the result does not depend on any other
entry. -/
theorem retrieve_first_entry_only (e : List Nat)
    (rest rest2 : List (List Nat)) (path : String) :
    copy_file_from_container (.archive (e :: rest)) path = pyDecode .ignore e ∧
    copy_file_from_container (.archive (e :: rest)) path
      = copy_file_from_container (.archive (e :: rest2)) path :=
  ⟨rfl, rfl⟩

end KaliDriver
